import Mathlib

/-!
Verification of the resource proxy layer (`openstack/proxy.py`).

The embedding models the data the proxy dispatches over: resource type
descriptors, resource instances as attribute maps, the three shapes of a
caller-supplied value (absent, raw identifier, resource instance), the
type-check wrapper `_check_resource`, the resolver `_get_resource`, and the
six proxy operations.  The session and the delegated resource capabilities
(`get`, `list`, `create`, `update`, `delete`, `head`) are external
collaborators; a `Session` here records, for each resolved instance, the
transport outcome its capability produces, and every operation also returns
the list of capability invocations it performed, so that the claims about
failures raised before any network call can be stated.

Attribute values are modelled as `Option String`: `none` is the absent value
(Python `None`).  An attribute map is an association list; a key that is not
present is unset, a key mapped to `none` is set to the absent value.
-/

set_option autoImplicit false

namespace Proxy

/-- An attribute map: attribute name to value, where `none` is the absent
value. -/
abbrev Attrs := List (String × Option String)

/-- Look up a key in an attribute map.  `none` means the key is unset;
`some v` means the key is set to `v` (which may itself be the absent
value). -/
def Attrs.find : Attrs → String → Option (Option String)
  | [], _ => none
  | (k, v) :: rest, key => if k = key then some v else Attrs.find rest key

/-- Set a key in an attribute map, replacing the existing binding if there
is one. -/
def Attrs.set : Attrs → String → Option String → Attrs
  | [], key, v => [(key, v)]
  | (k, w) :: rest, key, v =>
    if k = key then (key, v) :: rest
    else (k, w) :: Attrs.set rest key v

/-- A resource type descriptor: its class name and the name of its
identifying attribute (`id_attribute`). -/
structure ResourceType where
  name : String
  id_attribute : String
deriving DecidableEq, Repr

/-- A resource instance: its concrete type and its attribute map.
Membership in the resource family (`isinstance(x, resource.Resource)`)
is modelled by a value having this shape at all; `isinstance(x, T)` is
modelled by `rtype = T`. -/
structure Resource where
  rtype : ResourceType
  attrs : Attrs
deriving DecidableEq, Repr

/-- The three shapes of a caller-supplied value: absent (`None`), a raw
identifier, or a resource instance. -/
inductive Value where
  | absent
  | id (s : String)
  | res (r : Resource)
deriving DecidableEq, Repr

/-- The value of the identifying attribute of a resource instance, under
its own type descriptor. -/
def Resource.id_value (r : Resource) : Option String :=
  (r.attrs.find r.rtype.id_attribute).getD none

/-- Modelled from the spec: the resource family identifier-conversion rule
(`Resource.get_id` lives in the resource model, which is not under src/).
A resource instance is converted to the value of its own identifying
attribute; a raw identifier is returned unchanged; an absent value stays
absent. -/
def get_id : Value → Option String
  | .absent => none
  | .id s => some s
  | .res r => r.id_value

/-- Modelled from the spec: the bare-construction operation of a resource
type (`resource_type()`), which is part of the resource model, not under
src/: an instance of the type with no attribute set. -/
def ResourceType.bare (T : ResourceType) : Resource :=
  { rtype := T, attrs := [] }

/-- Modelled from the spec: the existing-from-identifier construction
operation (`resource_type.existing(**{id_attribute: v})`), part of the
resource model, not under src/: an instance of the type whose identifying
attribute is set to the given identifier value. -/
def ResourceType.existing (T : ResourceType) (v : Option String) : Resource :=
  { rtype := T, attrs := [(T.id_attribute, v)] }

/-- Modelled from the spec: the attribute-merge operation of the resource
model (`Resource.update_attrs`, not under src/), which has an
ignore-absent-values mode.  With the mode on, a key whose incoming value is
absent is skipped, and an attribute already set to a non-absent value is
never overwritten.  Without the mode, every key/value of the mapping is
applied, including absent values. -/
def Resource.update_attrs (r : Resource) (ignore_none : Bool) : Attrs → Resource
  | [] => r
  | (k, v) :: rest =>
    let r2 : Resource :=
      if ignore_none then
        match v with
        | none => r
        | some x =>
          match r.attrs.find k with
          | some (some _) => r
          | _ => { r with attrs := r.attrs.set k (some x) }
      else
        { r with attrs := r.attrs.set k v }
    r2.update_attrs ignore_none rest

/-- The failure raised by the `_check_resource` wrapper (a `ValueError`):
either the strict-mode rejection with message `A <expected> must be
passed`, or the loose-mode mismatch with message
`Expected <expected> but received <actual>`. -/
inductive CheckError where
  | mustBePassed (expectedName : String)
  | mismatch (expectedName : String) (actualName : String)
deriving DecidableEq, Repr

/-- The type-check of the `_check_resource(strict)` decorator, run before the
wrapped method: in strict mode a non-absent value that is not a resource
instance is rejected; in either mode a resource instance whose type is not
the expected one is rejected. -/
def _check_resource (strict : Bool) (expected : ResourceType) (actual : Value) :
    Option CheckError :=
  match actual with
  | .absent => none
  | .id _ => if strict then some (.mustBePassed expected.name) else none
  | .res r =>
    if r.rtype ≠ expected then some (.mismatch expected.name r.rtype.name)
    else none

/-- The resolution of a value into a resource instance before the path-args
merge (`_get_resource`, lines 47-57): absent builds a bare instance; a value
that is not an instance of the type is treated as a raw identifier and an
existing instance is built from its converted identifier; an instance of the
type is used directly. -/
def resolve_base (resource_type : ResourceType) (value : Value) : Resource :=
  match value with
  | .absent => resource_type.bare
  | .id s => resource_type.existing (get_id (.id s))
  | .res r =>
    if r.rtype = resource_type then r
    else resource_type.existing (get_id (.res r))

/-- `BaseProxy._get_resource`: resolve the value, then merge the path-scope
attributes with the ignore-absent mode on. -/
def _get_resource (resource_type : ResourceType) (value : Value)
    (path_args : Option Attrs) : Resource :=
  let res := resolve_base resource_type value
  match path_args with
  | none => res
  | some pa => res.update_attrs true pa

/-- A transport "not found" failure (`exceptions.NotFoundException`): its
detail payload and status code, as carried over into the domain failure. -/
structure NotFound where
  details : String
  status_code : Nat
deriving DecidableEq, Repr

/-- The outcome of a delegated capability call against the session: success,
a transport "not found" failure, or any other transport failure. -/
inductive TransportResult (α : Type) where
  | ok (a : α)
  | notFound (e : NotFound)
  | otherError (msg : String)
deriving DecidableEq, Repr

/-- A failure surfaced by a proxy operation: the `ValueError` of the type
check, the domain failure `ResourceNotFound` rebuilt from a transport "not
found", or an unmodified transport failure (which keeps its original kind:
"not found" or other). -/
inductive ProxyError where
  | typeMismatch (e : CheckError)
  | resourceNotFound (message : String) (details : String) (status_code : Nat)
  | transportNotFound (e : NotFound)
  | transport (msg : String)
deriving DecidableEq, Repr

/-- A record of one delegated capability invocation (a network call), with
the resolved instance it was invoked on. -/
inductive CapCall where
  | get (r : Resource)
  | list (r : Resource) (paginated : Bool) (query : Attrs)
  | create (r : Resource)
  | update (r : Resource)
  | delete (r : Resource)
  | head (r : Resource)
deriving DecidableEq, Repr

/-- The session together with the behaviour of the delegated resource
capabilities: for each resolved instance, the transport outcome the
corresponding capability produces.  The session itself is opaque; only
these outcomes are observable at this layer. -/
structure Session where
  getOutcome : Resource → TransportResult Resource
  listOutcome : Resource → Bool → Attrs → TransportResult (List Resource)
  createOutcome : Resource → TransportResult Resource
  updateOutcome : Resource → TransportResult Resource
  deleteOutcome : Resource → TransportResult (Option Resource)
  headOutcome : Resource → TransportResult Resource

/-- The string interpolation of a value into a failure message
(`"%s" % value`). -/
def valueStr : Value → String
  | .absent => "None"
  | .id s => s
  | .res r => r.rtype.name ++ "(" ++ (r.id_value).getD "None" ++ ")"

/-- The `ResourceNotFound` message rebuilt by `_get` and `_delete`:
`No <type> found for <value>`. -/
def notFoundMessage (resource_type : ResourceType) (value : Value) : String :=
  "No " ++ resource_type.name ++ " found for " ++ valueStr value

/-- The result of a proxy operation: either a failure or a value, together
with the list of capability invocations (network calls) performed. -/
abbrev OpResult (α : Type) := Except ProxyError α × List CapCall

/-- The `_check_resource(strict)` decorator itself: run the type check; on
failure raise the `ValueError` without invoking the wrapped method (no
network call); otherwise run the wrapped method. -/
def check_wrap {α : Type} (strict : Bool) (expected : ResourceType)
    (actual : Value) (method : OpResult α) : OpResult α :=
  match _check_resource strict expected actual with
  | some e => (.error (.typeMismatch e), [])
  | none => method

/-- The body of `BaseProxy._delete` (inside the decorator): resolve, invoke
the delete capability; on a transport "not found", return an absent result
when `ignore_missing` is set, else reraise as `ResourceNotFound` with the
rebuilt message and the original details and status code. -/
def delete_body (s : Session) (resource_type : ResourceType) (value : Value)
    (path_args : Option Attrs) (ignore_missing : Bool) :
    OpResult (Option Resource) :=
  let res := _get_resource resource_type value path_args
  match s.deleteOutcome res with
  | .ok rv => (.ok rv, [.delete res])
  | .notFound e =>
    if ignore_missing then (.ok none, [.delete res])
    else (.error (.resourceNotFound (notFoundMessage resource_type value)
      e.details e.status_code), [.delete res])
  | .otherError m => (.error (.transport m), [.delete res])

/-- `BaseProxy._delete`, decorated with `_check_resource(strict=False)`. -/
def _delete (s : Session) (resource_type : ResourceType) (value : Value)
    (path_args : Option Attrs) (ignore_missing : Bool) :
    OpResult (Option Resource) :=
  check_wrap false resource_type value
    (delete_body s resource_type value path_args ignore_missing)

/-- The body of `BaseProxy._update`: resolve, merge the caller-supplied
attributes onto the instance with the plain merge (no ignore-absent mode),
invoke the update capability; every transport failure propagates
unmodified. -/
def update_body (s : Session) (resource_type : ResourceType) (value : Value)
    (path_args : Option Attrs) (attrs : Attrs) : OpResult Resource :=
  let res := (_get_resource resource_type value path_args).update_attrs
    false attrs
  match s.updateOutcome res with
  | .ok r => (.ok r, [.update res])
  | .notFound e => (.error (.transportNotFound e), [.update res])
  | .otherError m => (.error (.transport m), [.update res])

/-- `BaseProxy._update`, decorated with `_check_resource(strict=False)`. -/
def _update (s : Session) (resource_type : ResourceType) (value : Value)
    (path_args : Option Attrs) (attrs : Attrs) : OpResult Resource :=
  check_wrap false resource_type value
    (update_body s resource_type value path_args attrs)

/-- Modelled from the spec: the fresh-construction operation
(`resource_type.new(**attrs)`, part of the resource model, not under src/):
a new instance of the type built from the given attributes. -/
def ResourceType.new (T : ResourceType) (attrs : Attrs) : Resource :=
  T.bare.update_attrs false attrs

/-- `BaseProxy._create`: build a fresh instance from the attributes, merge
the path-scope attributes with the plain merge (no ignore-absent mode),
invoke the create capability; transport failures propagate unmodified. -/
def _create (s : Session) (resource_type : ResourceType)
    (path_args : Option Attrs) (attrs : Attrs) : OpResult Resource :=
  let res0 := resource_type.new attrs
  let res := match path_args with
    | none => res0
    | some pa => res0.update_attrs false pa
  match s.createOutcome res with
  | .ok r => (.ok r, [.create res])
  | .notFound e => (.error (.transportNotFound e), [.create res])
  | .otherError m => (.error (.transport m), [.create res])

/-- The body of `BaseProxy._get`: resolve, invoke the get capability; a
transport "not found" is reraised as `ResourceNotFound` with the rebuilt
message and the original details and status code. -/
def get_body (s : Session) (resource_type : ResourceType) (value : Value)
    (path_args : Option Attrs) : OpResult Resource :=
  let res := _get_resource resource_type value path_args
  match s.getOutcome res with
  | .ok r => (.ok r, [.get res])
  | .notFound e => (.error (.resourceNotFound
      (notFoundMessage resource_type value) e.details e.status_code),
      [.get res])
  | .otherError m => (.error (.transport m), [.get res])

/-- `BaseProxy._get`, decorated with `_check_resource(strict=False)`. -/
def _get (s : Session) (resource_type : ResourceType) (value : Value)
    (path_args : Option Attrs) : OpResult Resource :=
  check_wrap false resource_type value
    (get_body s resource_type value path_args)

/-- Modelled from the spec: the query-parameter identifier-normalization
operation of the resource model (`_convert_ids`, not under src/): each
identifier-bearing entry of the query is converted via the
identifier-conversion rule. -/
def convert_ids (query : List (String × Value)) : Attrs :=
  query.map (fun kv => (kv.1, get_id kv.2))

/-- `BaseProxy._list`: resolve (no type-check decorator is applied),
normalize the query via the identifier-conversion rule, invoke the list
capability with the paginated flag; failures propagate unmodified. -/
def _list (s : Session) (resource_type : ResourceType) (value : Value)
    (paginated : Bool) (path_args : Option Attrs)
    (query : List (String × Value)) : OpResult (List Resource) :=
  let res := _get_resource resource_type value path_args
  let q := convert_ids query
  match s.listOutcome res paginated q with
  | .ok rs => (.ok rs, [.list res paginated q])
  | .notFound e => (.error (.transportNotFound e), [.list res paginated q])
  | .otherError m => (.error (.transport m), [.list res paginated q])

/-- `BaseProxy._head`: resolve (no type-check decorator is applied), invoke
the head capability; failures propagate unmodified. -/
def _head (s : Session) (resource_type : ResourceType) (value : Value)
    (path_args : Option Attrs) : OpResult Resource :=
  let res := _get_resource resource_type value path_args
  match s.headOutcome res with
  | .ok r => (.ok r, [.head res])
  | .notFound e => (.error (.transportNotFound e), [.head res])
  | .otherError m => (.error (.transport m), [.head res])

/-! Concrete fixtures used by witnesses and counterexamples. -/

/-- A fixture resource type. -/
def ServerT : ResourceType := { name := "Server", id_attribute := "id" }

/-- A second fixture resource type, distinct from `ServerT`. -/
def VolumeT : ResourceType := { name := "Volume", id_attribute := "id" }

/-- A fixture instance of `VolumeT`. -/
def vol1 : Resource := { rtype := VolumeT, attrs := [("id", some "v1")] }

/-- A fixture instance of `ServerT` with its identifying attribute set. -/
def srv1 : Resource := { rtype := ServerT, attrs := [("id", some "s1")] }

/-- A session whose every capability succeeds. -/
def okSession : Session :=
  { getOutcome := fun r => .ok r
    listOutcome := fun _ _ _ => .ok []
    createOutcome := fun r => .ok r
    updateOutcome := fun r => .ok r
    deleteOutcome := fun _ => .ok none
    headOutcome := fun r => .ok r }

/-- A fixture transport "not found" payload. -/
def nf404 : NotFound := { details := "missing", status_code := 404 }

/-- A session whose every capability raises a transport "not found" with the
payload `nf404`. -/
def nfSession : Session :=
  { getOutcome := fun _ => .notFound nf404
    listOutcome := fun _ _ _ => .notFound nf404
    createOutcome := fun _ => .notFound nf404
    updateOutcome := fun _ => .notFound nf404
    deleteOutcome := fun _ => .notFound nf404
    headOutcome := fun _ => .notFound nf404 }

/-! Helper lemmas about the attribute map and the merge operation. -/

theorem Attrs.find_set_self (attrs : Attrs) (key : String) (v : Option String) :
    (attrs.set key v).find key = some v := by
  induction attrs with
  | nil => simp [Attrs.set, Attrs.find]
  | cons kv rest ih =>
    by_cases h : kv.1 = key <;>
      simp [Attrs.set, Attrs.find, h, ih]

theorem Attrs.find_set_ne (attrs : Attrs) (k key : String) (v : Option String)
    (h : k ≠ key) : (attrs.set key v).find k = attrs.find k := by
  induction attrs with
  | nil => simp [Attrs.set, Attrs.find, Ne.symm h]
  | cons kv rest ih =>
    obtain ⟨k1, w⟩ := kv
    by_cases h2 : k1 = key
    · subst h2; simp [Attrs.set, Attrs.find, Ne.symm h]
    · by_cases h3 : k1 = k <;> simp [Attrs.set, Attrs.find, h, h2, h3, ih]

theorem Resource.update_attrs_rtype (r : Resource) (b : Bool) (attrs : Attrs) :
    (r.update_attrs b attrs).rtype = r.rtype := by
  induction attrs generalizing r with
  | nil => rfl
  | cons kv rest ih =>
    obtain ⟨k, v⟩ := kv
    cases b with
    | false => simpa [Resource.update_attrs] using ih _
    | true =>
      cases v with
      | none => simpa [Resource.update_attrs] using ih _
      | some x =>
        rcases hf : r.attrs.find k with _ | _ | y <;>
          simpa [Resource.update_attrs, hf] using ih _

/-- One step of the ignore-absent merge: an absent incoming value is
skipped. -/
theorem Resource.update_attrs_true_cons_none (r : Resource) (k2 : String)
    (rest : Attrs) :
    r.update_attrs true ((k2, none) :: rest) = r.update_attrs true rest := by
  simp [Resource.update_attrs]

/-- One step of the ignore-absent merge: an attribute already set to a
non-absent value is not overwritten. -/
theorem Resource.update_attrs_true_cons_keep (r : Resource) (k2 y z : String)
    (rest : Attrs) (hf : r.attrs.find k2 = some (some z)) :
    r.update_attrs true ((k2, some y) :: rest) = r.update_attrs true rest := by
  simp [Resource.update_attrs, hf]

/-- One step of the ignore-absent merge: an unset attribute is written. -/
theorem Resource.update_attrs_true_cons_unset (r : Resource) (k2 y : String)
    (rest : Attrs) (hf : r.attrs.find k2 = none) :
    r.update_attrs true ((k2, some y) :: rest) =
      (Resource.mk r.rtype (r.attrs.set k2 (some y))).update_attrs true rest := by
  simp [Resource.update_attrs, hf]

/-- One step of the ignore-absent merge: an attribute set to the absent
value is written. -/
theorem Resource.update_attrs_true_cons_absent (r : Resource) (k2 y : String)
    (rest : Attrs) (hf : r.attrs.find k2 = some none) :
    r.update_attrs true ((k2, some y) :: rest) =
      (Resource.mk r.rtype (r.attrs.set k2 (some y))).update_attrs true rest := by
  simp [Resource.update_attrs, hf]

/-- The ignore-absent merge never loses an attribute that is already set to
a non-absent value: it survives with the same value. -/
theorem Resource.update_attrs_true_keeps (r : Resource) (pa : Attrs)
    (k : String) (x : String) (h : r.attrs.find k = some (some x)) :
    ((r.update_attrs true pa).attrs.find k = some (some x)) := by
  induction pa generalizing r with
  | nil => exact h
  | cons kv rest ih =>
    obtain ⟨k2, v⟩ := kv
    cases v with
    | none => rw [Resource.update_attrs_true_cons_none]; exact ih _ h
    | some y =>
      rcases hf : r.attrs.find k2 with _ | _ | z
      · rw [Resource.update_attrs_true_cons_unset _ _ _ _ hf]
        apply ih
        have hne : k ≠ k2 := by
          intro he; rw [he, hf] at h; exact Option.noConfusion h
        rw [Attrs.find_set_ne _ _ _ _ hne]; exact h
      · rw [Resource.update_attrs_true_cons_absent _ _ _ _ hf]
        apply ih
        have hne : k ≠ k2 := by
          intro he; rw [he, hf] at h
          exact Option.noConfusion (Option.some.inj h)
        rw [Attrs.find_set_ne _ _ _ _ hne]; exact h
      · rw [Resource.update_attrs_true_cons_keep _ _ _ _ _ hf]; exact ih _ h

/-- The ignore-absent merge never sets an attribute to the absent value: if
an attribute is set to absent after the merge, it already was before. -/
theorem Resource.update_attrs_true_no_none (r : Resource) (pa : Attrs)
    (k : String) (h : (r.update_attrs true pa).attrs.find k = some none) :
    r.attrs.find k = some none := by
  induction pa generalizing r with
  | nil => exact h
  | cons kv rest ih =>
    obtain ⟨k2, v⟩ := kv
    cases v with
    | none => rw [Resource.update_attrs_true_cons_none] at h; exact ih _ h
    | some y =>
      rcases hf : r.attrs.find k2 with _ | _ | z
      · rw [Resource.update_attrs_true_cons_unset _ _ _ _ hf] at h
        have h2 := ih _ h
        by_cases hne : k = k2
        · rw [hne, Attrs.find_set_self] at h2
          exact absurd (Option.some.inj h2) (by simp)
        · rwa [Attrs.find_set_ne _ _ _ _ hne] at h2
      · rw [Resource.update_attrs_true_cons_absent _ _ _ _ hf] at h
        have h2 := ih _ h
        by_cases hne : k = k2
        · rw [hne, Attrs.find_set_self] at h2
          exact absurd (Option.some.inj h2) (by simp)
        · rwa [Attrs.find_set_ne _ _ _ _ hne] at h2
      · rw [Resource.update_attrs_true_cons_keep _ _ _ _ _ hf] at h
        exact ih _ h

/-! Helper lemmas about the operations: each body performs exactly one
capability invocation, on the resolved instance, and never produces the
type-mismatch failure itself. -/

theorem get_body_calls (s : Session) (T : ResourceType) (v : Value)
    (pa : Option Attrs) :
    (get_body s T v pa).2 = [.get (_get_resource T v pa)] := by
  unfold get_body
  rcases h : s.getOutcome (_get_resource T v pa) with r | e | m <;> simp [h]

theorem update_body_calls (s : Session) (T : ResourceType) (v : Value)
    (pa : Option Attrs) (attrs : Attrs) :
    (update_body s T v pa attrs).2 =
      [.update ((_get_resource T v pa).update_attrs false attrs)] := by
  unfold update_body
  rcases h : s.updateOutcome ((_get_resource T v pa).update_attrs false attrs)
    with r | e | m <;> simp [h]

theorem delete_body_calls (s : Session) (T : ResourceType) (v : Value)
    (pa : Option Attrs) (im : Bool) :
    (delete_body s T v pa im).2 = [.delete (_get_resource T v pa)] := by
  unfold delete_body
  rcases h : s.deleteOutcome (_get_resource T v pa) with r | e | m <;>
    cases im <;> simp [h]

theorem list_calls (s : Session) (T : ResourceType) (v : Value) (p : Bool)
    (pa : Option Attrs) (q : List (String × Value)) :
    (_list s T v p pa q).2 = [.list (_get_resource T v pa) p (convert_ids q)] := by
  unfold _list
  rcases h : s.listOutcome (_get_resource T v pa) p (convert_ids q)
    with r | e | m <;> simp [h]

theorem head_calls (s : Session) (T : ResourceType) (v : Value)
    (pa : Option Attrs) :
    (_head s T v pa).2 = [.head (_get_resource T v pa)] := by
  unfold _head
  rcases h : s.headOutcome (_get_resource T v pa) with r | e | m <;> simp [h]

theorem get_body_no_mismatch (s : Session) (T : ResourceType) (v : Value)
    (pa : Option Attrs) (e : CheckError) :
    (get_body s T v pa).1 ≠ .error (.typeMismatch e) := by
  unfold get_body
  rcases h : s.getOutcome (_get_resource T v pa) with r | e2 | m <;> simp [h]

theorem list_no_mismatch (s : Session) (T : ResourceType) (v : Value)
    (p : Bool) (pa : Option Attrs) (q : List (String × Value)) (e : CheckError) :
    (_list s T v p pa q).1 ≠ .error (.typeMismatch e) := by
  unfold _list
  rcases h : s.listOutcome (_get_resource T v pa) p (convert_ids q)
    with r | e2 | m <;> simp [h]

theorem head_no_mismatch (s : Session) (T : ResourceType) (v : Value)
    (pa : Option Attrs) (e : CheckError) :
    (_head s T v pa).1 ≠ .error (.typeMismatch e) := by
  unfold _head
  rcases h : s.headOutcome (_get_resource T v pa) with r | e2 | m <;> simp [h]

theorem update_body_no_mismatch (s : Session) (T : ResourceType) (v : Value)
    (pa : Option Attrs) (attrs : Attrs) (e : CheckError) :
    (update_body s T v pa attrs).1 ≠ .error (.typeMismatch e) := by
  unfold update_body
  rcases h : s.updateOutcome ((_get_resource T v pa).update_attrs false attrs)
    with r | e2 | m <;> simp [h]

theorem delete_body_no_mismatch (s : Session) (T : ResourceType) (v : Value)
    (pa : Option Attrs) (im : Bool) (e : CheckError) :
    (delete_body s T v pa im).1 ≠ .error (.typeMismatch e) := by
  unfold delete_body
  rcases h : s.deleteOutcome (_get_resource T v pa) with r | e2 | m <;>
    cases im <;> simp [h]

/-! The claims. -/

/-- Claim C1: for every resource type and every value that is a resource
instance of a different type (a member of the resource family that is not
an instance of the expected type), get, update and delete each fail with
the type-mismatch failure (the `ValueError` with message
`Expected <expected> but received <actual>`) and perform no capability
invocation, so no network call is attempted; a raw identifier or an absent
value passes the loose-mode check, and no type-mismatch failure is raised
for it. -/
theorem claim_C1_loose_mode_type_check (s : Session) (T : ResourceType)
    (r : Resource) (pa : Option Attrs) (im : Bool) (attrs : Attrs)
    (h : r.rtype ≠ T) :
    _get s T (.res r) pa =
      (.error (.typeMismatch (.mismatch T.name r.rtype.name)), []) ∧
    _update s T (.res r) pa attrs =
      (.error (.typeMismatch (.mismatch T.name r.rtype.name)), []) ∧
    _delete s T (.res r) pa im =
      (.error (.typeMismatch (.mismatch T.name r.rtype.name)), []) ∧
    (∀ i, _check_resource false T (.id i) = none) ∧
    _check_resource false T .absent = none ∧
    (∀ i e, (_get s T (.id i) pa).1 ≠ .error (.typeMismatch e)) ∧
    (∀ i e, (_update s T (.id i) pa attrs).1 ≠ .error (.typeMismatch e)) ∧
    (∀ i e, (_delete s T (.id i) pa im).1 ≠ .error (.typeMismatch e)) ∧
    (∀ e, (_get s T .absent pa).1 ≠ .error (.typeMismatch e)) := by
  refine ⟨?_, ?_, ?_, fun i => rfl, rfl, fun i e => ?_, fun i e => ?_,
    fun i e => ?_, fun e => ?_⟩
  · simp [_get, check_wrap, _check_resource, h]
  · simp [_update, check_wrap, _check_resource, h]
  · simp [_delete, check_wrap, _check_resource, h]
  · simpa [_get, check_wrap, _check_resource] using
      get_body_no_mismatch s T (.id i) pa e
  · simpa [_update, check_wrap, _check_resource] using
      update_body_no_mismatch s T (.id i) pa attrs e
  · simpa [_delete, check_wrap, _check_resource] using
      delete_body_no_mismatch s T (.id i) pa im e
  · simpa [_get, check_wrap, _check_resource] using
      get_body_no_mismatch s T .absent pa e

/-- Witness for claim C1 at a concrete input: a Volume instance passed
where a Server is expected. -/
theorem claim_C1_loose_mode_type_check_witness :
    _get okSession ServerT (.res vol1) none =
      (.error (.typeMismatch (.mismatch "Server" "Volume")), []) ∧
    _check_resource false ServerT (.id "v1") = none :=
  ⟨(claim_C1_loose_mode_type_check okSession ServerT vol1 none true []
      (by decide)).1,
   (claim_C1_loose_mode_type_check okSession ServerT vol1 none true []
      (by decide)).2.2.2.1 "v1"⟩

/-- Claim C9: in strict mode, a non-absent value that is not a resource
instance — in particular a raw identifier — is rejected with the
type-mismatch failure (`ValueError`, message `A <expected> must be
passed`) before the wrapped operation is invoked, whereas the loose mode
accepts the same raw identifier. -/
theorem claim_C9_strict_mode_rejects_raw_id (T : ResourceType) (i : String) :
    _check_resource true T (.id i) = some (.mustBePassed T.name) ∧
    (∀ (α : Type) (m : OpResult α),
      check_wrap true T (.id i) m =
        (.error (.typeMismatch (.mustBePassed T.name)), [])) ∧
    _check_resource false T (.id i) = none := by
  exact ⟨rfl, fun α m => rfl, rfl⟩

/-- Claim C6: resolving a raw identifier with no path args yields an
instance of the type whose identifying attribute equals the identifier;
resolving an absent value yields a bare instance of the type; resolving a
value that is already an instance of the type yields that instance
itself. -/
theorem claim_C6_resolution_shapes (T : ResourceType) (i : String)
    (r : Resource) (h : r.rtype = T) :
    _get_resource T (.id i) none = T.existing (some i) ∧
    (_get_resource T (.id i) none).rtype = T ∧
    (_get_resource T (.id i) none).attrs.find T.id_attribute
      = some (some i) ∧
    _get_resource T .absent none = T.bare ∧
    _get_resource T (.res r) none = r := by
  refine ⟨rfl, rfl, ?_, rfl, ?_⟩
  · simp [_get_resource, resolve_base, get_id, ResourceType.existing,
      Attrs.find]
  · simp [_get_resource, resolve_base, h]

/-- Witness for claim C6 at a concrete input. -/
theorem claim_C6_resolution_shapes_witness :
    srv1.rtype = ServerT ∧
    (_get_resource ServerT (.id "s9") none).attrs.find "id"
      = some (some "s9") ∧
    _get_resource ServerT (.res srv1) none = srv1 := by
  have h := claim_C6_resolution_shapes ServerT "s9" srv1 rfl
  exact ⟨rfl, h.2.2.1, h.2.2.2.2⟩

/-- Claim C7: resolution is idempotent with respect to the shape of the
input: a raw identifier and a pre-built existing instance of the type
carrying that identifier resolve to the same target instance, and get
performs the same capability invocation for both. -/
theorem claim_C7_resolution_idempotent (s : Session) (T : ResourceType)
    (i : String) (pa : Option Attrs) :
    _get_resource T (.id i) pa =
      _get_resource T (.res (T.existing (some i))) pa ∧
    (_get s T (.id i) pa).2 =
      (_get s T (.res (T.existing (some i))) pa).2 := by
  have hb : _get_resource T (.id i) pa =
      _get_resource T (.res (T.existing (some i))) pa := by
    simp [_get_resource, resolve_base, ResourceType.existing, get_id,
      Resource.id_value]
  refine ⟨hb, ?_⟩
  have h1 : (_get s T (.id i) pa).2 = [.get (_get_resource T (.id i) pa)] := by
    simpa [_get, check_wrap, _check_resource] using get_body_calls s T (.id i) pa
  have h2 : (_get s T (.res (T.existing (some i))) pa).2 =
      [.get (_get_resource T (.res (T.existing (some i))) pa)] := by
    simpa [_get, check_wrap, _check_resource, ResourceType.existing] using
      get_body_calls s T (.res (T.existing (some i))) pa
  rw [h1, h2, hb]

/-- Claim C3: when the delegated get capability raises a transport "not
found", get raises `ResourceNotFound` with message
`No <type> found for <value>` (built from the type name and the original
lookup value) carrying the original failure details and status code, and
never returns normally. -/
theorem claim_C3_get_translates_not_found (s : Session) (T : ResourceType)
    (v : Value) (pa : Option Attrs) (e : NotFound)
    (hchk : _check_resource false T v = none)
    (h : s.getOutcome (_get_resource T v pa) = .notFound e) :
    _get s T v pa =
      (.error (.resourceNotFound
        ("No " ++ T.name ++ " found for " ++ valueStr v)
        e.details e.status_code),
       [.get (_get_resource T v pa)]) ∧
    (∀ r, (_get s T v pa).1 ≠ .ok r) := by
  have h1 : _get s T v pa =
      (.error (.resourceNotFound
        ("No " ++ T.name ++ " found for " ++ valueStr v)
        e.details e.status_code),
       [.get (_get_resource T v pa)]) := by
    simp [_get, check_wrap, hchk, get_body, h, notFoundMessage]
  exact ⟨h1, fun r => by rw [h1]; simp⟩

/-- Witness for claim C3 at a concrete input. -/
theorem claim_C3_get_translates_not_found_witness :
    _get nfSession ServerT (.id "abc") none =
      (.error (.resourceNotFound "No Server found for abc" "missing" 404),
       [.get (ServerT.existing (some "abc"))]) := by
  exact (claim_C3_get_translates_not_found nfSession ServerT (.id "abc")
    none nf404 rfl rfl).1

/-- Claim C4: when the delegated delete capability raises a transport "not
found", delete with `ignore_missing` true returns an absent result with no
failure, and delete with `ignore_missing` false raises `ResourceNotFound`
with the rebuilt message carrying the original details and status code. -/
theorem claim_C4_delete_ignore_missing (s : Session) (T : ResourceType)
    (v : Value) (pa : Option Attrs) (e : NotFound)
    (hchk : _check_resource false T v = none)
    (h : s.deleteOutcome (_get_resource T v pa) = .notFound e) :
    _delete s T v pa true = (.ok none, [.delete (_get_resource T v pa)]) ∧
    _delete s T v pa false =
      (.error (.resourceNotFound
        ("No " ++ T.name ++ " found for " ++ valueStr v)
        e.details e.status_code),
       [.delete (_get_resource T v pa)]) := by
  constructor <;>
    simp [_delete, check_wrap, hchk, delete_body, h, notFoundMessage]

/-- Witness for claim C4 at a concrete input. -/
theorem claim_C4_delete_ignore_missing_witness :
    _delete nfSession ServerT (.id "gone") none true =
      (.ok none, [.delete (ServerT.existing (some "gone"))]) ∧
    _delete nfSession ServerT (.id "gone") none false =
      (.error (.resourceNotFound "No Server found for gone" "missing" 404),
       [.delete (ServerT.existing (some "gone"))]) := by
  exact claim_C4_delete_ignore_missing nfSession ServerT (.id "gone")
    none nf404 rfl rfl

/-- Claim C8: update resolves the instance, merges the caller-supplied
attributes onto it with the plain merge, and invokes the update capability
on the merged instance with the held session; every transport failure of
that capability, including a transport "not found", propagates to the
caller unmodified (no wrapping into `ResourceNotFound`). -/
theorem claim_C8_update_propagates_failures (s : Session) (T : ResourceType)
    (v : Value) (pa : Option Attrs) (attrs : Attrs)
    (hchk : _check_resource false T v = none) :
    (_update s T v pa attrs).2 =
      [.update ((_get_resource T v pa).update_attrs false attrs)] ∧
    (∀ e, s.updateOutcome ((_get_resource T v pa).update_attrs false attrs)
        = .notFound e →
      (_update s T v pa attrs).1 = .error (.transportNotFound e)) ∧
    (∀ m, s.updateOutcome ((_get_resource T v pa).update_attrs false attrs)
        = .otherError m →
      (_update s T v pa attrs).1 = .error (.transport m)) ∧
    (∀ r, s.updateOutcome ((_get_resource T v pa).update_attrs false attrs)
        = .ok r →
      (_update s T v pa attrs).1 = .ok r) := by
  refine ⟨?_, fun e he => ?_, fun m hm => ?_, fun r hr => ?_⟩
  · simpa [_update, check_wrap, hchk] using update_body_calls s T v pa attrs
  · simp [_update, check_wrap, hchk, update_body, he]
  · simp [_update, check_wrap, hchk, update_body, hm]
  · simp [_update, check_wrap, hchk, update_body, hr]

/-- Witness for claim C8 at a concrete input: a transport "not found"
raised by the update capability surfaces as the unmodified transport
failure, not as `ResourceNotFound`. -/
theorem claim_C8_update_propagates_failures_witness :
    (_update nfSession ServerT (.id "u1") none []).1 =
      .error (.transportNotFound nf404) := by
  exact (claim_C8_update_propagates_failures nfSession ServerT (.id "u1")
    none [] rfl).2.1 nf404 rfl

/-- Claim C10: the caller-supplied attrs mapping of update is merged
destructively onto the resolved instance — the merge runs without the
ignore-absent mode, so an entry whose value is absent is still applied and
overwrites an attribute already set to a non-absent value, unlike the
additive path-scope merge of resolution. -/
theorem claim_C10_update_merge_destructive (s : Session) (T : ResourceType)
    (v : Value) (pa : Option Attrs) (attrs : Attrs) (k x : String)
    (hchk : _check_resource false T v = none)
    (h : (_get_resource T v pa).attrs.find k = some (some x)) :
    (_update s T v pa attrs).2 =
      [.update ((_get_resource T v pa).update_attrs false attrs)] ∧
    ((_get_resource T v pa).update_attrs false [(k, none)]).attrs.find k
      = some none ∧
    ((_get_resource T v pa).update_attrs true [(k, none)]).attrs.find k
      = some (some x) := by
  refine ⟨?_, ?_, ?_⟩
  · simpa [_update, check_wrap, hchk] using
      update_body_calls s T v pa attrs
  · simp [Resource.update_attrs, Attrs.find_set_self]
  · rw [Resource.update_attrs_true_cons_none]; exact h

/-- Witness for claim C10 at a concrete input: an absent-valued attrs entry
wipes the already-set identifying attribute of the resolved instance. -/
theorem claim_C10_update_merge_destructive_witness :
    ((_get_resource ServerT (.res srv1) none).update_attrs false
      [("id", none)]).attrs.find "id" = some none ∧
    ((_get_resource ServerT (.res srv1) none).update_attrs true
      [("id", none)]).attrs.find "id" = some (some "s1") := by
  exact ⟨(claim_C10_update_merge_destructive okSession ServerT (.res srv1)
      none [("id", none)] "id" "s1" (by decide) (by decide)).2.1,
    (claim_C10_update_merge_destructive okSession ServerT (.res srv1)
      none [("id", none)] "id" "s1" (by decide) (by decide)).2.2⟩

/-- Counterexample to claim C2: `_list` and `_head` are not wrapped by the
type check, so a Volume instance passed where a Server is expected does not
fail with the type-mismatch failure — both operations proceed, treating the
mismatched instance as a raw identifier. -/
theorem claim_C2_counterexample :
    vol1.rtype ≠ ServerT ∧
    (_list okSession ServerT (.res vol1) false none []).1 = .ok [] ∧
    (_head okSession ServerT (.res vol1) none).1 =
      .ok (ServerT.existing (some "v1")) := by
  exact ⟨by decide, rfl, rfl⟩

/-- Claim C2 as amended: list and head perform loose resolution but apply
no type-mismatch check at all — a resource instance of the wrong type is
treated as a raw identifier (the capability is invoked on an instance of
the expected type built from the identifier of the supplied instance) and
no type-mismatch failure is ever raised. -/
theorem claim_C2_amended_list_head_unchecked (s : Session)
    (T : ResourceType) (r : Resource) (p : Bool)
    (q : List (String × Value)) (h : r.rtype ≠ T) :
    (_list s T (.res r) p none q).2 =
      [.list (T.existing r.id_value) p (convert_ids q)] ∧
    (∀ e, (_list s T (.res r) p none q).1 ≠ .error (.typeMismatch e)) ∧
    (_head s T (.res r) none).2 = [.head (T.existing r.id_value)] ∧
    (∀ e, (_head s T (.res r) none).1 ≠ .error (.typeMismatch e)) := by
  have hres : _get_resource T (.res r) none = T.existing r.id_value := by
    simp [_get_resource, resolve_base, get_id, h]
  refine ⟨?_, fun e => list_no_mismatch s T (.res r) p none q e, ?_,
    fun e => head_no_mismatch s T (.res r) none e⟩
  · rw [list_calls, hres]
  · rw [head_calls, hres]

/-- Witness for the amended claim C2 at a concrete input. -/
theorem claim_C2_amended_list_head_unchecked_witness :
    (_head okSession ServerT (.res vol1) none).2 =
      [.head (ServerT.existing (some "v1"))] := by
  exact (claim_C2_amended_list_head_unchecked okSession ServerT vol1
    false [] (by decide)).2.2.1

/-- Counterexample to claim C5: during create, the path-scope merge is the
plain merge (no ignore-absent mode), so a path-scope entry whose value is
absent overwrites an attribute of the freshly built instance that already
held a non-absent value, setting it to absent. -/
theorem claim_C5_counterexample :
    (ServerT.new [("name", some "web1")]).attrs.find "name"
      = some (some "web1") ∧
    (_create okSession ServerT (some [("name", none)])
        [("name", some "web1")]).2 =
      [.create (Resource.mk ServerT [("name", none)])] := by
  exact ⟨rfl, rfl⟩

/-- Claim C5 as amended: in the resolution merge used by get, list, head,
update and delete, an attribute of the resolved instance that already holds
a non-absent value is never overwritten and no attribute is ever set to
absent; during create, by contrast, the path-scope attributes are merged
with the plain destructive merge onto the freshly built instance. -/
theorem claim_C5_amended_resolution_merge_additive (T : ResourceType)
    (v : Value) (pa : Attrs) (k : String) :
    (∀ x, (resolve_base T v).attrs.find k = some (some x) →
      (_get_resource T v (some pa)).attrs.find k = some (some x)) ∧
    ((_get_resource T v (some pa)).attrs.find k = some none →
      (resolve_base T v).attrs.find k = some none) ∧
    (∀ (s : Session) (attrs : Attrs), (_create s T (some pa) attrs).2 =
      [.create ((T.new attrs).update_attrs false pa)]) := by
  refine ⟨fun x hx => ?_, fun hx => ?_, fun s attrs => ?_⟩
  · exact Resource.update_attrs_true_keeps _ _ _ _ hx
  · exact Resource.update_attrs_true_no_none _ _ _ hx
  · unfold _create
    rcases h : s.createOutcome ((T.new attrs).update_attrs false pa)
      with r | e | m <;> simp [ h]

/-- Witness for the amended claim C5 at a concrete input: neither an
incoming non-absent value for an already-set attribute nor an incoming
absent value changes the resolved instance. -/
theorem claim_C5_amended_resolution_merge_additive_witness :
    (_get_resource ServerT (.res srv1)
      (some [("id", some "other"), ("zone", none)])).attrs.find "id"
      = some (some "s1") := by
  exact (claim_C5_amended_resolution_merge_additive ServerT (.res srv1)
    [("id", some "other"), ("zone", none)] "id").1 "s1" (by decide)

end Proxy
